import Mathlib

/-!
Verification of the EPLC retrieval-and-synthesis engine.

The development shallowly embeds the retrieval, confidence-gating and
drafting logic of the repository (files qna_finalv2.py, backend_api.py and
Generation_final_v2.py).  Python floats are modelled as rationals, Python
exceptions as Option / Except values, and the external language model,
embedder and vector stores as oracle functions supplied to each operation.
-/

namespace EPLC

/-- A Python value handed to float(): either convertible to a number or not. -/
inductive PyVal where
  | num (x : ℚ)
  | nonnum
deriving DecidableEq, Repr

/-- Embeds Retriever.dist_to_sim of Generation_final_v2.py (identical in
backend_api.py): 1.0 - float(d) under a try, 0.0 when float() raises. -/
def dist_to_sim : PyVal → ℚ
  | .num x => 1 - x
  | .nonnum => 0

/-- Embeds the Python builtin max(list, default=d): d on an empty list,
otherwise the maximum of the elements. -/
def pyMax (l : List ℚ) (d : ℚ) : ℚ :=
  match l with
  | [] => d
  | x :: xs => xs.foldl max x

/-- Whitespace test matching the characters str.strip() removes. -/
def isPySpace (c : Char) : Bool :=
  c = ' ' || c = '\t' || c = '\n' || c = '\x0d'

/-- Embeds str.strip(): drop whitespace from both ends. -/
def pyStrip (s : String) : String :=
  ⟨((s.data.dropWhile isPySpace).reverse.dropWhile isPySpace).reverse⟩

/-- Embeds str.lower() for the ASCII strings compared here. -/
def pyLower (s : String) : String :=
  ⟨s.data.map Char.toLower⟩

/-- A semantic hit as returned by a vector store: id, document, distance. -/
abbrev Hit := String × String × ℚ

/-- Comparison key used by combined.sort(key=lambda x: x[2]). -/
def hitLE (a b : Hit) : Prop := a.2.2 ≤ b.2.2

instance : DecidableRel hitLE := fun a b => inferInstanceAs (Decidable (a.2.2 ≤ b.2.2))

instance : IsTotal Hit hitLE := ⟨fun a b => le_total a.2.2 b.2.2⟩

instance : IsTrans Hit hitLE := ⟨fun _ _ _ h h2 => le_trans h h2⟩

/-- Embeds combined.sort(key=lambda x: x[2]): a stable ascending sort by
distance (list.sort in Python is stable; insertion sort with a non-strict
key comparison is the corresponding stable sort). -/
def sortHits (l : List Hit) : List Hit := List.insertionSort hitLE l

/-- An exact-lookup oracle: substring and limit to parallel (id, document)
pairs; none embeds the lookup raising an exception. -/
abbrev ExactStore := String → ℕ → Option (List (String × String))

/-- A vector-lookup oracle: query embedding and result count to hits sorted by
the store; none embeds the query raising an exception. -/
abbrev VecStore := List ℚ → ℕ → Option (List Hit)

/-- Embeds retrieve_exact of qna_finalv2.py (the same logic appears in
EPLCBackend.retrieve_exact of backend_api.py): iterate over the two
collections, each get limited to k and guarded by a try whose failure skips
the store, extend ids and documents in store order, then truncate both to k
and attach zero scores of matching length. -/
def retrieve_exact (coll_eplc coll_hhs : ExactStore) (substring : String)
    (k : ℕ) : List String × List String × List ℚ :=
  let step := fun (acc : List String × List String) (coll : ExactStore) =>
    match coll substring k with
    | none => acc
    | some r => (acc.1 ++ r.map Prod.fst, acc.2 ++ r.map Prod.snd)
  let idsDocs := [coll_eplc, coll_hhs].foldl step ([], [])
  (idsDocs.1.take k, idsDocs.2.take k, List.replicate (min idsDocs.2.length k) 0)

/-- Embeds retrieve of qna_finalv2.py: encode the query once with the
"query: " prompt prepended, query both collections with n_results k, collect
the zipped triples of both responses, sort the combined list ascending by
distance, truncate to k and project into parallel lists.  The store calls
have no surrounding try, so a raising store propagates (none overall). -/
def retrieve (encode : String → List ℚ) (coll_eplc coll_hhs : VecStore)
    (query : String) (k : ℕ) :
    Option (List String × List String × List ℚ) :=
  let qv := encode ("query: " ++ query)
  match coll_eplc qv k with
  | none => none
  | some h1 =>
    match coll_hhs qv k with
    | none => none
    | some h2 =>
      let combined := (sortHits (h1 ++ h2)).take k
      some (combined.map (·.1), combined.map (·.2.1), combined.map (·.2.2))

/-- Follows the spec words for claim C3: the global cross-store top-k obtained
by a full merge of the per-store top-k lists, re-sorted ascending by distance
and truncated to k. -/
def specCrossStoreTopK (h1 h2 : List Hit) (k : ℕ) : List Hit :=
  (sortHits (h1 ++ h2)).take k

/-- Embeds EPLCBackend.retrieve_semantic of backend_api.py: return empty when
the embedding model is unavailable; otherwise encode once and query each
connected collection under its own try, an absent collection or a failing
query contributing nothing; the surviving hits of both stores are sorted
ascending by distance, truncated to k and projected. -/
def retrieve_semantic (sbertOk : Bool) (encode : String → List ℚ)
    (coll_eplc coll_hhs : Option VecStore) (query : String) (k : ℕ) :
    List String × List String × List ℚ :=
  if sbertOk then
    let qv := encode ("query: " ++ query)
    let fromStore := fun (c : Option VecStore) =>
      match c with
      | none => []
      | some f => match f qv k with | none => [] | some h => h
    let combined := (sortHits (fromStore coll_eplc ++ fromStore coll_hhs)).take k
    (combined.map (·.1), combined.map (·.2.1), combined.map (·.2.2))
  else ([], [], [])

/-- The refusal sentinel answer returned on the REFUSE path. -/
def refusalSentinel : String := "Not specified in the provided context."

/-- Embeds the sentinel test of the pipeline:
answer.strip().lower() == "not specified in the provided context.". -/
def sentinelTriggered (answer : String) : Bool :=
  pyLower (pyStrip answer) == "not specified in the provided context."

/-- A language-model oracle: the fallback flag and the prompt map either to
the completion text or to the message of a raised exception. -/
abbrev ChatOracle := Bool → String → Except String String

/-- Embeds ask_openai of backend_api.py (identical in qna_finalv2.py): pick
the fallback or the context-bound system prompt via the flag, return the
completion text with None collapsed to the empty string and stripped; a
raised exception is caught and formatted as an answer string, not re-raised. -/
def ask_openai (lm : ChatOracle) (allow_fallback : Bool) (prompt : String) :
    String :=
  match lm allow_fallback prompt with
  | .ok t => pyStrip t
  | .error e => "[openai error] " ++ e

/-- Embeds make_prompt: context joined with the fixed separator, then the
question. -/
def make_prompt (question : String) (docs : List String) : String :=
  "CONTEXT:\n" ++ String.intercalate "\n\n---\n\n" docs ++ "\n\nQUESTION:\n"
    ++ question ++ "\n"

/-- Embeds steps 1-4 of EPLCBackend._answer_with_dual_retrieval (the same
fusion appears in main of qna_finalv2.py): exact retrieval, semantic
retrieval, the semantic hits filtered by distance strictly below the
threshold, and the exact ids and docs concatenated before the filtered
semantic ones. -/
def fusedContext (e1 e2 : ExactStore) (sbertOk : Bool)
    (encode : String → List ℚ) (s1 s2 : Option VecStore) (question : String)
    (k : ℕ) (sem_threshold : ℚ) : List String × List String :=
  let ex := retrieve_exact e1 e2 question k
  let sem := retrieve_semantic sbertOk encode s1 s2 question k
  let sem_valid := (sem.1.zip (sem.2.1.zip sem.2.2)).filter
    (fun h => decide (h.2.2 < sem_threshold))
  (ex.1 ++ sem_valid.map (·.1), ex.2.1 ++ sem_valid.map (·.2.1))

/-- Outcome of one Q&A turn; chatCalls records each (allow_fallback, prompt)
language-model call issued, in order, so that call counts are observable. -/
structure QAOutcome where
  success : Bool
  answer : String
  errMsg : Option String
  citations : List String
  chatCalls : List (Bool × String)
deriving DecidableEq, Repr

/-- Embeds EPLCBackend._answer_with_dual_retrieval of backend_api.py (the
loop body of main in qna_finalv2.py takes the same decisions): on empty fused
context return the sentinel with no citations and no chat call; otherwise one
context-bound call, and when its answer passes the sentinel test one further
general-knowledge fallback call whose result replaces the answer while the
citations stay the fused ids. -/
def answer_with_dual_retrieval (lm : ChatOracle) (e1 e2 : ExactStore)
    (sbertOk : Bool) (encode : String → List ℚ) (s1 s2 : Option VecStore)
    (question : String) (k : ℕ) (sem_threshold : ℚ) : QAOutcome :=
  let fused := fusedContext e1 e2 sbertOk encode s1 s2 question k sem_threshold
  if fused.2.isEmpty then
    ⟨true, refusalSentinel, none, [], []⟩
  else
    let prompt := make_prompt question fused.2
    let answer := ask_openai lm false prompt
    if sentinelTriggered answer then
      ⟨true, ask_openai lm true question, none, fused.1,
        [(false, prompt), (true, question)]⟩
    else
      ⟨true, answer, none, fused.1, [(false, prompt)]⟩

/-- The fixed four-item checklist appended on the low-confidence drafting
path. -/
def augmentationChecklist : String :=
  "\n\nAssumptions & Next Steps:\n- Confirm data categories and user groups.\n- Validate environmental dependencies.\n- List technical or security risks.\n- Identify owner responsibilities.\n"

/-- Embeds the post-generation augmentation of main in Generation_final_v2.py
(identical in EPLCBackend.generate_document_section): the best similarity
over all semantic distances with default 0.0, the checklist appended exactly
when that best is strictly below min_sim * 0.75. -/
def applyLowConfidenceAugmentation (draft : String) (dists : List PyVal)
    (min_sim : ℚ) : String :=
  let best_sim := pyMax (dists.map dist_to_sim) 0
  if best_sim < min_sim * (3/4) then draft ++ augmentationChecklist else draft

/-- The drafting system prompt GEN_SYSTEM of Generation_final_v2.py. -/
def GEN_SYSTEM : String :=
  "You are an assistant that drafts paste-ready text for a chosen phase of the Enterprise Product Lifecycle (EPLC).\nEach vector database corresponds to a specific phase (Requirement, Design, Implementation, or Development).\nUse the phase, template, and section to stay in scope.\nBe concise, specific, and professional (120–180 words)."

/-- The system role of detect_missing_info. -/
def checkerSystem : String := "You check completeness of input vs template."

/-- The user prompt of detect_missing_info of Generation_final_v2.py. -/
def detectMissingPrompt (template_text user_input : String) : String :=
  "\nYou are an EPLC completeness checker.\n\nTEMPLATE CONTEXT (EPLC guidance from vector DB):\n"
    ++ template_text ++ "\n\nUSER INPUT:\n" ++ user_input
    ++ "\n\nTASK:\n1. Identify key EPLC-required elements implied by TEMPLATE CONTEXT.\n2. Check which elements are missing from USER INPUT.\n3. Return a bullet list of missing items.\n4. If nothing is missing, return exactly: \"No major missing elements.\"\n"

/-- The first-draft user prompt of main in Generation_final_v2.py. -/
def genUserPrompt (context sectionName template phaseTitle details
    instructions : String) : String :=
  "\nCONTEXT:\n" ++ context ++ "\n\nQUESTION:\nDraft the " ++ sectionName
    ++ " section for the " ++ template ++ " in the " ++ phaseTitle
    ++ " Phase.\n\nUser details:\n" ++ details ++ "\n\nInstructions:\n"
    ++ instructions ++ "\n"

/-- The regenerate prompt of main in Generation_final_v2.py. -/
def regeneratePrompt (context sectionName template phaseTitle : String)
    (target_min target_max : ℕ) : String :=
  "\nCONTEXT:\n" ++ context ++ "\n\nTASK:\nRegenerate the entire "
    ++ sectionName ++ " section for the " ++ template ++ " in the "
    ++ phaseTitle
    ++ " Phase,\nusing the same user details. Produce a clearly different, improved version.\nKeep "
    ++ toString target_min ++ "-" ++ toString target_max ++ " words.\n"

/-- The refine prompt of main in Generation_final_v2.py. -/
def refinePrompt (context draft follow_text : String) : String :=
  "\nCONTEXT:\n" ++ context ++ "\n\nCURRENT DRAFT:\n" ++ draft
    ++ "\n\nFOLLOW-UP INSTRUCTIONS:\n" ++ follow_text
    ++ "\n\nTASK:\nRegenerate the entire section with meaningful updates that fully reflect the new instructions.\n"

/-- Embeds filter_by_threshold of Generation_final_v2.py: keep the documents
whose similarity is at least the keep-threshold. -/
def filter_by_threshold (docs : List String) (dists : List PyVal)
    (sim_th : ℚ) : List String :=
  ((docs.zip dists).filter (fun p => decide (dist_to_sim p.2 ≥ sim_th))).map
    Prod.fst

/-- Embeds join_context of Generation_final_v2.py: the fixed separator, or a
sentinel string on no matches. -/
def join_context (docs : List String) : String :=
  if docs.isEmpty then "(no strong matches)"
  else String.intercalate "\n\n---\n\n" docs

/-- The mutable state of one drafting cycle: the interactive local variables
of main in Generation_final_v2.py, plus a counter of retrieval runs so that
any re-run of retrieval would be observable in the state. -/
structure Session where
  phaseTitle : String
  template : String
  sectionName : String
  details : String
  context : String
  draft : String
  missing : String
  retrievalRuns : ℕ
deriving DecidableEq, Repr

/-- Embeds the session setup of main in Generation_final_v2.py (lines
219-259): one retriever query builds the context, the first draft is
generated and possibly augmented, and the missing-info report is produced;
retrieval ran exactly once. -/
def startSession (retrQuery : String → List String × List PyVal)
    (chatGen : String → String → String)
    (phaseTitle template sectionName details instructions : String)
    (sim_filter min_sim : ℚ) : Session :=
  let query_text := phaseTitle ++ " Phase | Template: " ++ template
    ++ " | Section: " ++ sectionName ++ "\n" ++ details
  let res := retrQuery query_text
  let kept := filter_by_threshold res.1 res.2 sim_filter
  let context := join_context kept
  let draft0 := chatGen GEN_SYSTEM
    (genUserPrompt context sectionName template phaseTitle details instructions)
  let draft := applyLowConfidenceAugmentation draft0 res.2 min_sim
  let missing := chatGen checkerSystem (detectMissingPrompt context details)
  ⟨phaseTitle, template, sectionName, details, context, draft, missing, 1⟩

/-- A follow-up action of the satisfaction loop that keeps the session alive:
regenerate, or refine with free-text instructions. -/
inductive FollowUp where
  | regenerate
  | refine (text : String)

/-- Embeds one iteration of the satisfaction loop of main in
Generation_final_v2.py (lines 262-333): regenerate re-synthesizes from the
held context and re-runs the missing-info check; refine does the same with
the stripped follow-up instructions and the current draft.  No retrieval
happens in either branch. -/
def sessionStep (chatGen : String → String → String)
    (target_min target_max : ℕ) (s : Session) : FollowUp → Session
  | .regenerate =>
    let d := chatGen GEN_SYSTEM (regeneratePrompt s.context s.sectionName
      s.template s.phaseTitle target_min target_max)
    let m := chatGen checkerSystem (detectMissingPrompt s.context s.details)
    { s with draft := d, missing := m }
  | .refine text =>
    let d := chatGen GEN_SYSTEM (refinePrompt s.context s.draft (pyStrip text))
    let m := chatGen checkerSystem (detectMissingPrompt s.context s.details)
    { s with draft := d, missing := m }

end EPLC

namespace EPLC

/-- C5: the similarity conversion returns 1 - d on every numeric distance d and
0.0 on every non-numeric input; it is a total function into the numbers, so it
never raises and always yields a numeric (float) result. -/
theorem dist_to_sim_spec :
    (∀ x : ℚ, dist_to_sim (.num x) = 1 - x) ∧ dist_to_sim .nonnum = 0 :=
  ⟨fun _ => rfl, rfl⟩

/-- C4: exact retrieval returns the concatenation of the per-store
exact-containment responses in store-iteration order truncated to k total
across both stores, its length is always at most k, and the scores are a
matching-length list of zeros. -/
theorem retrieve_exact_spec (c1 c2 : ExactStore) (q : String) (k : ℕ) :
    (retrieve_exact c1 c2 q k).1 =
      (((c1 q k).getD []).map Prod.fst ++ ((c2 q k).getD []).map Prod.fst).take k ∧
    (retrieve_exact c1 c2 q k).2.1 =
      (((c1 q k).getD []).map Prod.snd ++ ((c2 q k).getD []).map Prod.snd).take k ∧
    (retrieve_exact c1 c2 q k).2.1.length ≤ k ∧
    (retrieve_exact c1 c2 q k).2.2 =
      List.replicate (retrieve_exact c1 c2 q k).2.1.length 0 := by
  unfold retrieve_exact
  cases h1 : c1 q k <;> cases h2 : c2 q k <;>
    simp [h1, h2, List.length_take, Nat.min_comm]

/-- C3: semantic retrieval encodes the query once (the result depends on the
encoder only through its value at the single prompted query string), and on
successful store lookups it returns exactly the projections of the global
cross-store top-k: the per-store top-k lists merged, re-sorted ascending by
distance and truncated to k, which is sorted — not a per-store slice. -/
theorem retrieve_cross_store_topk (encode : String → List ℚ)
    (c1 c2 : VecStore) (q : String) (k : ℕ) (h1 h2 : List Hit)
    (H1 : c1 (encode ("query: " ++ q)) k = some h1)
    (H2 : c2 (encode ("query: " ++ q)) k = some h2) :
    retrieve encode c1 c2 q k =
      some ((specCrossStoreTopK h1 h2 k).map (·.1),
            (specCrossStoreTopK h1 h2 k).map (·.2.1),
            (specCrossStoreTopK h1 h2 k).map (·.2.2)) ∧
    List.Sorted hitLE (specCrossStoreTopK h1 h2 k) ∧
    ∀ encode2 : String → List ℚ,
      encode2 ("query: " ++ q) = encode ("query: " ++ q) →
      retrieve encode2 c1 c2 q k = retrieve encode c1 c2 q k := by
  refine ⟨?_, ?_, ?_⟩
  · unfold retrieve
    dsimp only
    rw [H1, H2]
    rfl
  · exact List.Pairwise.sublist (List.take_sublist k _)
      (List.sorted_insertionSort hitLE (h1 ++ h2))
  · intro encode2 he
    unfold retrieve
    dsimp only
    rw [he]

/-- Witness for C3 at two concrete one-hit stores: the cross-store result
interleaves by distance. -/
theorem retrieve_cross_store_topk_witness :
    retrieve (fun _ => [0]) (fun _ _ => some [("a", "da", (2 : ℚ))])
        (fun _ _ => some [("b", "db", (1 : ℚ))]) "q" 2 =
      some (["b", "a"], ["db", "da"], [(1 : ℚ), (2 : ℚ)]) :=
  (retrieve_cross_store_topk (fun _ => [0]) _ _ "q" 2 _ _ rfl rfl).1.trans
    (by decide)

/-- Counterexample for C8 as stated: in retrieve of qna_finalv2.py a single
failing store makes the whole semantic retrieval fail (none), even though the
other store holds a hit that the backend variant still returns on the very
same inputs. -/
theorem retrieve_store_failure_counterexample :
    retrieve (fun _ => [0]) (fun _ _ => none)
      (fun _ _ => some [("b", "db", (1 : ℚ))]) "q" 6 = none ∧
    retrieve_semantic true (fun _ => [0]) (some (fun _ _ => none))
      (some (fun _ _ => some [("b", "db", (1 : ℚ))])) "q" 6 =
      (["b"], ["db"], [(1 : ℚ)]) := by
  exact ⟨rfl, by decide⟩

/-- C8 amended: exact retrieval (both implementations) and the backend
semantic retrieval degrade gracefully — a store whose lookup raises behaves
exactly like a store with no matches, so the results of the remaining store
are still returned; only the standalone script semantic retrieve propagates
a store failure. -/
theorem retrieval_degrades_gracefully (encode : String → List ℚ)
    (c : ExactStore) (v : VecStore) (q : String) (k : ℕ) :
    retrieve_exact (fun _ _ => none) c q k =
      retrieve_exact (fun _ _ => some []) c q k ∧
    retrieve_exact c (fun _ _ => none) q k =
      retrieve_exact c (fun _ _ => some []) q k ∧
    retrieve_semantic true encode (some (fun _ _ => none)) (some v) q k =
      retrieve_semantic true encode none (some v) q k ∧
    retrieve_semantic true encode (some v) (some (fun _ _ => none)) q k =
      retrieve_semantic true encode (some v) none q k := by
  refine ⟨?_, ?_, rfl, rfl⟩
  · unfold retrieve_exact
    cases h : c q k <;> simp [h]
  · unfold retrieve_exact
    cases h : c q k <;> simp [h]

/-- Helper: exact retrieval returns as many ids as documents. -/
lemma retrieve_exact_length_eq (c1 c2 : ExactStore) (q : String) (k : ℕ) :
    (retrieve_exact c1 c2 q k).1.length = (retrieve_exact c1 c2 q k).2.1.length := by
  unfold retrieve_exact
  cases h1 : c1 q k <;> cases h2 : c2 q k <;> simp [h1, h2]

/-- Helper: the fused context holds as many citation ids as documents. -/
lemma fusedContext_length_eq (e1 e2 : ExactStore) (sbertOk : Bool)
    (encode : String → List ℚ) (s1 s2 : Option VecStore) (q : String) (k : ℕ)
    (th : ℚ) :
    (fusedContext e1 e2 sbertOk encode s1 s2 q k th).1.length =
      (fusedContext e1 e2 sbertOk encode s1 s2 q k th).2.length := by
  unfold fusedContext
  simp [retrieve_exact_length_eq]

/-- C1: on an empty fused context the engine returns exactly the refusal
sentinel with an empty citation list and issues zero language-model calls. -/
theorem refusal_short_circuit (lm : ChatOracle) (e1 e2 : ExactStore)
    (sbertOk : Bool) (encode : String → List ℚ) (s1 s2 : Option VecStore)
    (question : String) (k : ℕ) (th : ℚ)
    (h : (fusedContext e1 e2 sbertOk encode s1 s2 question k th).2 = []) :
    answer_with_dual_retrieval lm e1 e2 sbertOk encode s1 s2 question k th =
      ⟨true, "Not specified in the provided context.", none, [], []⟩ := by
  unfold answer_with_dual_retrieval
  dsimp only
  rw [h]
  rfl

/-- Witness for C1: empty stores give the sentinel, no citations, no calls. -/
theorem refusal_short_circuit_witness :
    (fusedContext (fun _ _ => some []) (fun _ _ => some []) true
        (fun _ => [0]) (some (fun _ _ => some [])) (some (fun _ _ => some []))
        "q" 6 1).2 = [] ∧
    answer_with_dual_retrieval (fun _ _ => .ok "unused")
        (fun _ _ => some []) (fun _ _ => some []) true (fun _ => [0])
        (some (fun _ _ => some [])) (some (fun _ _ => some [])) "q" 6 1 =
      ⟨true, "Not specified in the provided context.", none, [], []⟩ :=
  ⟨rfl, refusal_short_circuit (fun _ _ => .ok "unused") _ _ true _ _ _ "q" 6 1 rfl⟩

/-- C2: when the context-bound synthesis returns exactly the sentinel string
on a non-empty fused context, the engine makes exactly the two calls — the
context-bound one then one fallback call on the bare question — and returns
the fallback result. -/
theorem sentinel_fallback_single_call (lm : ChatOracle) (e1 e2 : ExactStore)
    (sbertOk : Bool) (encode : String → List ℚ) (s1 s2 : Option VecStore)
    (question : String) (k : ℕ) (th : ℚ)
    (hne : (fusedContext e1 e2 sbertOk encode s1 s2 question k th).2 ≠ [])
    (hans : ask_openai lm false
        (make_prompt question
          (fusedContext e1 e2 sbertOk encode s1 s2 question k th).2) =
      "Not specified in the provided context.") :
    (answer_with_dual_retrieval lm e1 e2 sbertOk encode s1 s2 question k
        th).chatCalls =
      [(false, make_prompt question
          (fusedContext e1 e2 sbertOk encode s1 s2 question k th).2),
        (true, question)] ∧
    (answer_with_dual_retrieval lm e1 e2 sbertOk encode s1 s2 question k
        th).answer = ask_openai lm true question := by
  have hE : (fusedContext e1 e2 sbertOk encode s1 s2 question k th).2.isEmpty
      = false := by
    simpa [List.isEmpty_iff] using hne
  have hsent : sentinelTriggered "Not specified in the provided context."
      = true := by decide
  unfold answer_with_dual_retrieval
  simp [hE, hans, hsent]

/-- Witness for C2: a model answering the sentinel on the context-bound call
and a general answer on the fallback call. -/
theorem sentinel_fallback_single_call_witness :
    ((fusedContext (fun _ _ => some [("id1", "doc1")]) (fun _ _ => some [])
        true (fun _ => [0]) (some (fun _ _ => some []))
        (some (fun _ _ => some [])) "q" 6 1).2 ≠ []) ∧
    (answer_with_dual_retrieval
        (fun fb _ => if fb then .ok "General answer." else
          .ok "Not specified in the provided context.")
        (fun _ _ => some [("id1", "doc1")]) (fun _ _ => some []) true
        (fun _ => [0]) (some (fun _ _ => some [])) (some (fun _ _ => some []))
        "q" 6 1).answer = "General answer." :=
  ⟨by decide,
    ((sentinel_fallback_single_call
        (fun fb _ => if fb then .ok "General answer." else
          .ok "Not specified in the provided context.")
        (fun _ _ => some [("id1", "doc1")]) (fun _ _ => some []) true
        (fun _ => [0]) (some (fun _ _ => some [])) (some (fun _ _ => some []))
        "q" 6 1 (by decide) (by decide)).2).trans (by decide)⟩

/-- Counterexample for C9 as stated: with a model call that raises, the
pipeline still reports success (no error for the turn) and the formatted
error text becomes the answer. -/
theorem synthesis_error_counterexample :
    (answer_with_dual_retrieval (fun _ _ => .error "boom")
        (fun _ _ => some [("id1", "doc1")]) (fun _ _ => some []) true
        (fun _ => [0]) (some (fun _ _ => some [])) (some (fun _ _ => some []))
        "q" 6 1).success = true ∧
    (answer_with_dual_retrieval (fun _ _ => .error "boom")
        (fun _ _ => some [("id1", "doc1")]) (fun _ _ => some []) true
        (fun _ => [0]) (some (fun _ _ => some [])) (some (fun _ _ => some []))
        "q" 6 1).answer = "[openai error] boom" ∧
    (answer_with_dual_retrieval (fun _ _ => .error "boom")
        (fun _ _ => some [("id1", "doc1")]) (fun _ _ => some []) true
        (fun _ => [0]) (some (fun _ _ => some [])) (some (fun _ _ => some []))
        "q" 6 1).errMsg = none := by
  exact ⟨by decide, by decide, by decide⟩

/-- C9 amended: a failing context-bound synthesis call is caught inside
ask_openai and surfaced as the text of a successful answer, prefixed with
"[openai error] "; the turn still reports success and carries no error
value, so the failure is visible only inside the answer text. -/
theorem synthesis_error_surfaced_in_answer (lm : ChatOracle)
    (e1 e2 : ExactStore) (sbertOk : Bool) (encode : String → List ℚ)
    (s1 s2 : Option VecStore) (question : String) (k : ℕ) (th : ℚ) (e : String)
    (hne : (fusedContext e1 e2 sbertOk encode s1 s2 question k th).2 ≠ [])
    (herr : lm false (make_prompt question
        (fusedContext e1 e2 sbertOk encode s1 s2 question k th).2) =
      .error e)
    (hnotsent : sentinelTriggered ("[openai error] " ++ e) = false) :
    (answer_with_dual_retrieval lm e1 e2 sbertOk encode s1 s2 question k
        th).success = true ∧
    (answer_with_dual_retrieval lm e1 e2 sbertOk encode s1 s2 question k
        th).answer = "[openai error] " ++ e ∧
    (answer_with_dual_retrieval lm e1 e2 sbertOk encode s1 s2 question k
        th).errMsg = none := by
  have hE : (fusedContext e1 e2 sbertOk encode s1 s2 question k th).2.isEmpty
      = false := by
    simpa [List.isEmpty_iff] using hne
  have hask : ask_openai lm false (make_prompt question
      (fusedContext e1 e2 sbertOk encode s1 s2 question k th).2) =
      "[openai error] " ++ e := by
    unfold ask_openai
    rw [herr]
  unfold answer_with_dual_retrieval
  simp [hE, hask, hnotsent]

/-- Witness for the amended C9 at a concrete failing model. -/
theorem synthesis_error_surfaced_in_answer_witness :
    ((fusedContext (fun _ _ => some [("id1", "doc1")]) (fun _ _ => some [])
        true (fun _ => [0]) (some (fun _ _ => some []))
        (some (fun _ _ => some [])) "q" 6 1).2 ≠ []) ∧
    (answer_with_dual_retrieval (fun _ _ => .error "boom")
        (fun _ _ => some [("id1", "doc1")]) (fun _ _ => some []) true
        (fun _ => [0]) (some (fun _ _ => some [])) (some (fun _ _ => some []))
        "q" 6 1).answer = "[openai error] " ++ "boom" :=
  ⟨by decide,
    (synthesis_error_surfaced_in_answer (fun _ _ => .error "boom")
        (fun _ _ => some [("id1", "doc1")]) (fun _ _ => some []) true
        (fun _ => [0]) (some (fun _ _ => some [])) (some (fun _ _ => some []))
        "q" 6 1 "boom" (by decide) rfl (by decide)).2.1⟩

/-- C10: whenever the fallback path is taken, the returned citations are the
full fused citation-id list, which is non-empty, while the answer is the
fallback result. -/
theorem fallback_keeps_full_citations (lm : ChatOracle) (e1 e2 : ExactStore)
    (sbertOk : Bool) (encode : String → List ℚ) (s1 s2 : Option VecStore)
    (question : String) (k : ℕ) (th : ℚ)
    (hne : (fusedContext e1 e2 sbertOk encode s1 s2 question k th).2 ≠ [])
    (hsent : sentinelTriggered (ask_openai lm false (make_prompt question
        (fusedContext e1 e2 sbertOk encode s1 s2 question k th).2)) = true) :
    (answer_with_dual_retrieval lm e1 e2 sbertOk encode s1 s2 question k
        th).citations =
      (fusedContext e1 e2 sbertOk encode s1 s2 question k th).1 ∧
    (answer_with_dual_retrieval lm e1 e2 sbertOk encode s1 s2 question k
        th).citations ≠ [] ∧
    (answer_with_dual_retrieval lm e1 e2 sbertOk encode s1 s2 question k
        th).answer = ask_openai lm true question := by
  have hE : (fusedContext e1 e2 sbertOk encode s1 s2 question k th).2.isEmpty
      = false := by
    simpa [List.isEmpty_iff] using hne
  have hcit : (answer_with_dual_retrieval lm e1 e2 sbertOk encode s1 s2
      question k th).citations =
      (fusedContext e1 e2 sbertOk encode s1 s2 question k th).1 := by
    unfold answer_with_dual_retrieval
    simp [hE, hsent]
  refine ⟨hcit, ?_, ?_⟩
  · rw [hcit]
    intro hnil
    apply hne
    have := fusedContext_length_eq e1 e2 sbertOk encode s1 s2 question k th
    rw [hnil] at this
    exact List.eq_nil_of_length_eq_zero this.symm
  · unfold answer_with_dual_retrieval
    simp [hE, hsent]

/-- Witness for C10: the fallback answer still carries the exact-match
citation id. -/
theorem fallback_keeps_full_citations_witness :
    ((fusedContext (fun _ _ => some [("id1", "doc1")]) (fun _ _ => some [])
        true (fun _ => [0]) (some (fun _ _ => some []))
        (some (fun _ _ => some [])) "q" 6 1).2 ≠ []) ∧
    (answer_with_dual_retrieval
        (fun fb _ => if fb then .ok "General answer." else
          .ok "Not specified in the provided context.")
        (fun _ _ => some [("id1", "doc1")]) (fun _ _ => some []) true
        (fun _ => [0]) (some (fun _ _ => some [])) (some (fun _ _ => some []))
        "q" 6 1).citations = ["id1"] :=
  ⟨by decide,
    ((fallback_keeps_full_citations
        (fun fb _ => if fb then .ok "General answer." else
          .ok "Not specified in the provided context.")
        (fun _ _ => some [("id1", "doc1")]) (fun _ _ => some []) true
        (fun _ => [0]) (some (fun _ _ => some [])) (some (fun _ _ => some []))
        "q" 6 1 (by decide) (by decide)).1).trans (by decide)⟩

/-- C6: the drafting augmentation appends the fixed checklist verbatim after
the generated draft exactly when the best similarity is strictly below
0.75 times min_sim, and leaves the draft unchanged otherwise — the draft is
always a prefix of the result, never replaced. -/
theorem augmentation_appends_checklist (draft : String) (dists : List PyVal)
    (min_sim : ℚ) :
    applyLowConfidenceAugmentation draft dists min_sim =
      draft ++ (if pyMax (dists.map dist_to_sim) 0 < min_sim * (3/4)
        then augmentationChecklist else "") := by
  unfold applyLowConfidenceAugmentation
  split <;> simp [*]

/-- Witness for C6, the spec scenario: best similarity 0.2 with min_sim 0.35
falls below 0.2625, so the checklist is appended. -/
theorem augmentation_appends_checklist_witness :
    applyLowConfidenceAugmentation "D" [PyVal.num (4/5)] (7/20) =
      "D" ++ augmentationChecklist :=
  (augmentation_appends_checklist "D" [PyVal.num (4/5)] (7/20)).trans
    (by norm_num [pyMax, dist_to_sim])

/-- Helper: one satisfaction-loop step changes only draft and missing. -/
lemma sessionStep_frame (chatGen : String → String → String)
    (tmin tmax : ℕ) (s : Session) (op : FollowUp) :
    (sessionStep chatGen tmin tmax s op).context = s.context ∧
    (sessionStep chatGen tmin tmax s op).retrievalRuns = s.retrievalRuns ∧
    (sessionStep chatGen tmin tmax s op).phaseTitle = s.phaseTitle ∧
    (sessionStep chatGen tmin tmax s op).template = s.template ∧
    (sessionStep chatGen tmin tmax s op).sectionName = s.sectionName ∧
    (sessionStep chatGen tmin tmax s op).details = s.details := by
  cases op <;> exact ⟨rfl, rfl, rfl, rfl, rfl, rfl⟩

/-- C7: across any sequence of regenerate and refine operations the context
computed at session start stays unchanged, retrieval is never re-run (the
run counter is untouched, staying at its initial value 1), and the phase,
template, section and details are untouched as well — only draft and
missing may change. -/
theorem session_regenerate_refine_frame (chatGen : String → String → String)
    (tmin tmax : ℕ) (s : Session) (ops : List FollowUp) :
    ((ops.foldl (sessionStep chatGen tmin tmax) s).context = s.context ∧
     (ops.foldl (sessionStep chatGen tmin tmax) s).retrievalRuns =
       s.retrievalRuns ∧
     (ops.foldl (sessionStep chatGen tmin tmax) s).phaseTitle = s.phaseTitle ∧
     (ops.foldl (sessionStep chatGen tmin tmax) s).template = s.template ∧
     (ops.foldl (sessionStep chatGen tmin tmax) s).sectionName =
       s.sectionName ∧
     (ops.foldl (sessionStep chatGen tmin tmax) s).details = s.details) ∧
    ∀ retrQuery cg p t sec det instr sf ms,
      (ops.foldl (sessionStep chatGen tmin tmax)
        (startSession retrQuery cg p t sec det instr sf ms)).retrievalRuns
        = 1 := by
  have main : ∀ (l : List FollowUp) (s0 : Session),
      (l.foldl (sessionStep chatGen tmin tmax) s0).context = s0.context ∧
      (l.foldl (sessionStep chatGen tmin tmax) s0).retrievalRuns =
        s0.retrievalRuns ∧
      (l.foldl (sessionStep chatGen tmin tmax) s0).phaseTitle =
        s0.phaseTitle ∧
      (l.foldl (sessionStep chatGen tmin tmax) s0).template = s0.template ∧
      (l.foldl (sessionStep chatGen tmin tmax) s0).sectionName =
        s0.sectionName ∧
      (l.foldl (sessionStep chatGen tmin tmax) s0).details = s0.details := by
    intro l
    induction l with
    | nil => exact fun s0 => ⟨rfl, rfl, rfl, rfl, rfl, rfl⟩
    | cons op rest ih =>
      intro s0
      have h1 := sessionStep_frame chatGen tmin tmax s0 op
      have h2 := ih (sessionStep chatGen tmin tmax s0 op)
      simp only [List.foldl_cons]
      exact ⟨h2.1.trans h1.1, h2.2.1.trans h1.2.1, h2.2.2.1.trans h1.2.2.1,
        h2.2.2.2.1.trans h1.2.2.2.1, h2.2.2.2.2.1.trans h1.2.2.2.2.1,
        h2.2.2.2.2.2.trans h1.2.2.2.2.2⟩
  refine ⟨main ops s, ?_⟩
  intro retrQuery cg p t sec det instr sf ms
  exact (main ops (startSession retrQuery cg p t sec det instr sf ms)).2.1

end EPLC
